import Mathlib

/-!
Shallow embedding of the comment/reaction subsystem in `src/boo/comments.py`
(anonymous-confession platform).  The relational store is modelled as lists of
rows; each Python function that touches the store becomes a Lean function from
an input `DB` state to a result together with the successor state.  SQL
`fetchone` on an unordered `SELECT` is modelled as `List.find?` (first matching
row), `UPDATE ... WHERE` as `List.map` over matching rows, `DELETE ... WHERE`
as `List.filter`, `INSERT` as appending a row.  Python truthiness tests on ids
(`if parent_comment_id:`, `if not post_info[3]:`) are modelled faithfully:
the value `0` is falsy.  The configured page size `COMMENTS_PER_PAGE` (from
the `config` module) is passed as an explicit `perPage` argument.
-/

namespace Boo

/-- A row of the `comments` table. `likes`/`dislikes` are integers (an SQL
`UPDATE ... SET likes = likes - 1` can drive them negative, so `Int`). -/
structure Comment where
  comment_id : Nat
  post_id : Nat
  content : String
  user_id : Nat
  parent_comment_id : Option Nat
  timestamp : Nat
  likes : Int
  dislikes : Int
  flagged : Bool
deriving DecidableEq

/-- A row of the `reactions` table. -/
structure Reaction where
  user_id : Nat
  target_type : String
  target_id : Nat
  reaction_type : String
deriving DecidableEq

/-- A row of the `posts` table (owned externally; `approved` is the stored 0/1
flag, `channel_message_id` nullable). -/
structure Post where
  post_id : Nat
  content : String
  category : String
  channel_message_id : Option Nat
  approved : Nat
  post_number : Nat
deriving DecidableEq

/-- A row of the `users` table (only the counter this subsystem touches). -/
structure UserRow where
  user_id : Nat
  comments_posted : Nat
deriving DecidableEq

/-- The relational store.  `nextCommentId` models the monotonically assigned
`comment_id` (SQLite `lastrowid` / PostgreSQL `RETURNING`). -/
structure DB where
  posts : List Post
  comments : List Comment
  reactions : List Reaction
  users : List UserRow
  nextCommentId : Nat
deriving DecidableEq

/-- The `WHERE user_id = ? AND target_type = 'comment' AND target_id = ?`
predicate used by `react_to_comment`. -/
def reactionMatches (u c : Nat) (r : Reaction) : Bool :=
  r.user_id == u && r.target_type == "comment" && r.target_id == c

/-- `save_comment(post_id, content, user_id, parent_comment_id)` from
`src/boo/comments.py`.  `now` is the store-assigned creation instant (the
`timestamp` column default).  Returns `(comment_id?, error?)` and the new
state.  The Python guard `if parent_comment_id:` is truthiness: `Some 0`
skips the parent-existence check. -/
def save_comment (post_id : Nat) (content : String) (user_id : Nat)
    (parent_comment_id : Option Nat) (now : Nat) (s : DB) :
    (Option Nat × Option String) × DB :=
  match s.posts.find? (fun p => p.post_id == post_id && p.approved == 1) with
  | none =>
      ((none, some ("Post " ++ toString post_id ++ " not found or not approved")), s)
  | some _ =>
      let parentMissing :=
        match parent_comment_id with
        | none => false
        | some pid =>
            if pid == 0 then false
            else (s.comments.find? (fun (c : Comment) => c.comment_id == pid)).isNone
      if parentMissing then
        ((none, some ("Parent comment not found")), s)
      else
        let cid := s.nextCommentId
        let newComment : Comment :=
          { comment_id := cid, post_id := post_id, content := content,
            user_id := user_id, parent_comment_id := parent_comment_id,
            timestamp := now, likes := 0, dislikes := 0, flagged := false }
        let users := s.users.map (fun (u : UserRow) =>
          if u.user_id == user_id then { u with comments_posted := u.comments_posted + 1 } else u)
        ((some cid, none),
         { s with comments := s.comments ++ [newComment], users := users,
                  nextCommentId := cid + 1 })

/-- The branch of `react_to_comment` selected by the existing-reaction check:
the Reaction-row change and the counter adjustment, returning the action
string and the mutated state. -/
def reactStep (user_id comment_id : Nat) (reaction_type : String) (s : DB) :
    String × DB :=
  let existing := s.reactions.find? (reactionMatches user_id comment_id)
  match existing with
    | some r =>
        if r.reaction_type == reaction_type then
          -- Remove reaction if same type
          let reactions := s.reactions.filter
            (fun x => !(reactionMatches user_id comment_id x))
          let comments := s.comments.map (fun cm =>
            if cm.comment_id == comment_id then
              (if reaction_type == "like" then { cm with likes := cm.likes - 1 }
               else { cm with dislikes := cm.dislikes - 1 })
            else cm)
          ("removed", { s with reactions := reactions, comments := comments })
        else
          -- Update reaction type
          let reactions := s.reactions.map (fun x =>
            if reactionMatches user_id comment_id x then
              { x with reaction_type := reaction_type } else x)
          let comments := s.comments.map (fun cm =>
            if cm.comment_id == comment_id then
              (if r.reaction_type == "like" then
                 { cm with likes := cm.likes - 1, dislikes := cm.dislikes + 1 }
               else
                 { cm with likes := cm.likes + 1, dislikes := cm.dislikes - 1 })
            else cm)
          ("changed", { s with reactions := reactions, comments := comments })
    | none =>
        -- Add new reaction
        let reactions := s.reactions ++
          [{ user_id := user_id, target_type := "comment", target_id := comment_id,
             reaction_type := reaction_type }]
        let comments := s.comments.map (fun cm =>
          if cm.comment_id == comment_id then
            (if reaction_type == "like" then { cm with likes := cm.likes + 1 }
             else { cm with dislikes := cm.dislikes + 1 })
          else cm)
        ("added", { s with reactions := reactions, comments := comments })

/-- `react_to_comment(user_id, comment_id, reaction_type)` from
`src/boo/comments.py`.  Performs the branch selected by the existing-reaction
check (`reactStep`) and then reads the current counts back (0 when the
comment row is absent).  Returns `(ok, actionTaken, currentLikes,
currentDislikes)` and the new state. -/
def react_to_comment (user_id comment_id : Nat) (reaction_type : String)
    (s : DB) : (Bool × String × Int × Int) × DB :=
  let step := reactStep user_id comment_id reaction_type s
  let action := step.1
  let s1 := step.2
  -- Return current counts (0 when the comment row is absent)
  let counts : Int × Int :=
    match s1.comments.find? (fun cm => cm.comment_id == comment_id) with
    | some cm => (cm.likes, cm.dislikes)
    | none => (0, 0)
  ((true, action, counts.1, counts.2), s1)

/-- `get_user_reaction(user_id, comment_id)`: pure read of the pair's row. -/
def get_user_reaction (user_id comment_id : Nat) (s : DB) : Option String :=
  (s.reactions.find? (reactionMatches user_id comment_id)).map
    (fun r => r.reaction_type)

/-- Modelled from the spec: `get_comment_count` lives in the repository's `db`
module, which is not among the provided sources; per the spec it is the
post's total comment count (`totalCount`). -/
def get_comment_count (post_id : Nat) (s : DB) : Nat :=
  (s.comments.filter (fun c => c.post_id == post_id)).length

/-- Stable insertion of a comment into a timestamp-sorted list (a row is
placed before the first strictly later row, so rows with equal timestamps
keep their store order). -/
def insertByTs (c : Comment) : List Comment → List Comment
  | [] => [c]
  | d :: ds => if c.timestamp ≤ d.timestamp then c :: d :: ds else d :: insertByTs c ds

/-- Stable sort by `timestamp` ascending, modelling `ORDER BY timestamp ASC`
(ties keep the store's natural order). -/
def sortByTs : List Comment → List Comment
  | [] => []
  | c :: cs => insertByTs c (sortByTs cs)

/-- The `WHERE post_id = ? ORDER BY timestamp ASC` result set of
`get_comments_paginated` (before `LIMIT`/`OFFSET`). -/
def sortedPostComments (post_id : Nat) (s : DB) : List Comment :=
  sortByTs (s.comments.filter (fun c => c.post_id == post_id))

/-- `ROW_NUMBER() OVER (ORDER BY timestamp ASC)`: pairs each row of the full
ordered result set with its rank, starting at `n`. -/
def rowNumber (n : Nat) : List Comment → List (Nat × Comment)
  | [] => []
  | c :: cs => (n, c) :: rowNumber (n + 1) cs

/-- One element of the flat structure built by `get_comments_paginated`. -/
structure CommentItem where
  comment_id : Nat
  content : String
  timestamp : Nat
  likes : Int
  dislikes : Int
  flagged : Bool
  parent_comment_id : Option Nat
  comment_number : Nat
  is_reply : Bool
  original_comment : Option (Nat × String × Nat)
deriving DecidableEq

/-- Builds one dict of the `comments_flat` list: `is_reply` is
`parent_comment_id is not None`; the parent projection is fetched only when
`parent_comment_id` is truthy (nonzero) and the parent row exists. -/
def mkItem (s : DB) (n : Nat) (c : Comment) : CommentItem :=
  { comment_id := c.comment_id, content := c.content, timestamp := c.timestamp,
    likes := c.likes, dislikes := c.dislikes, flagged := c.flagged,
    parent_comment_id := c.parent_comment_id, comment_number := n,
    is_reply := c.parent_comment_id.isSome,
    original_comment :=
      match c.parent_comment_id with
      | none => none
      | some pid =>
          if pid == 0 then none
          else
            (s.comments.find? (fun o => o.comment_id == pid)).map
              (fun o => (o.comment_id, o.content, o.timestamp)) }

/-- `get_comments_paginated(post_id, page)` from `src/boo/comments.py`:
returns `(items, page, total_pages, total_comments)`.  The window function
numbers the *entire* post's ordered comment set; `LIMIT`/`OFFSET` are applied
to the numbered set. -/
def get_comments_paginated (post_id page perPage : Nat) (s : DB) :
    List CommentItem × Nat × Nat × Nat :=
  let offset := (page - 1) * perPage
  let total_comments := get_comment_count post_id s
  let numbered := rowNumber 1 (sortedPostComments post_id s)
  let pageRows := (numbered.drop offset).take perPage
  let items := pageRows.map (fun nc => mkItem s nc.1 nc.2)
  let total_pages := (total_comments + perPage - 1) / perPage
  (items, page, total_pages, total_comments)

/-- `get_comment_sequential_number(comment_id)` from `src/boo/comments.py`:
count of comments of the same post with `timestamp <= this one's`. -/
def get_comment_sequential_number (comment_id : Nat) (s : DB) : Option Nat :=
  match s.comments.find? (fun c => c.comment_id == comment_id) with
  | none => none
  | some cm =>
      some ((s.comments.filter (fun c =>
        c.post_id == cm.post_id && decide (c.timestamp ≤ cm.timestamp))).length)

/-- Result of `find_comment_page`. -/
structure PageLoc where
  page : Nat
  post_id : Nat
  comment_id : Nat
deriving DecidableEq

/-- `find_comment_page(comment_id)` from `src/boo/comments.py`.  The anchor is
the parent when `parent_comment_id` is truthy (nonzero), else the comment
itself; the page counts top-level comments of the post with a smaller id. -/
def find_comment_page (comment_id perPage : Nat) (s : DB) : Option PageLoc :=
  match s.comments.find? (fun c => c.comment_id == comment_id) with
  | none => none
  | some cm =>
      let target :=
        match cm.parent_comment_id with
        | some p => if p == 0 then comment_id else p
        | none => comment_id
      let commentsBefore := (s.comments.filter (fun c =>
        c.post_id == cm.post_id && c.parent_comment_id.isNone &&
          decide (c.comment_id < target))).length
      some { page := commentsBefore / perPage + 1, post_id := cm.post_id,
             comment_id := target }

/-- One edit request issued to the external channel-publishing collaborator. -/
structure EditRequest where
  message_id : Nat
  is_caption : Bool
  comment_count : Nat
deriving DecidableEq

/-- `update_channel_message_comment_count(context, post_id)` from
`src/boo/comments.py`.  The external collaborators `is_media_post` and
`get_media_info` (from the `submission` module, outside this subsystem) are
passed as parameters; the transport effect is modelled as the list of emitted
edit requests.  `if not post_info[3]` is truthiness: a null or zero
`channel_message_id` fails. -/
def update_channel_message_comment_count (isMedia : Nat → Bool)
    (mediaInfo : Nat → Option String) (post_id : Nat) (s : DB) :
    (Bool × String) × List EditRequest :=
  match s.posts.find? (fun p => p.post_id == post_id) with
  | none => ((false, "No channel message found"), [])
  | some p =>
      match p.channel_message_id with
      | none => ((false, "No channel message found"), [])
      | some mid =>
          if mid == 0 then ((false, "No channel message found"), [])
          else if p.approved != 1 then ((false, "Post not approved"), [])
          else
            let cnt := get_comment_count post_id s
            let isCaption := isMedia post_id && (mediaInfo post_id).isSome
            ((true, "Updated comment count to " ++ toString cnt),
             [{ message_id := mid, is_caption := isCaption, comment_count := cnt }])

/-! ### Spec-side reaction state machine (§4.2 of the spec) -/

/-- The per-`(user, comment)` states of the spec's reaction state machine. -/
inductive ReactState where
  | NoReaction
  | Liked
  | Disliked
deriving DecidableEq

/-- The two inputs of the reaction state machine. -/
inductive ReactInput where
  | like
  | dislike
deriving DecidableEq

/-- The reaction-type string of an input. -/
def ReactInput.str : ReactInput → String
  | .like => "like"
  | .dislike => "dislike"

/-- The spec's six-transition table: next state, `actionTaken`, and the
`(Δlikes, Δdislikes)` counter effect. -/
def specTransition : ReactState → ReactInput → ReactState × String × Int × Int
  | .NoReaction, .like => (.Liked, "added", 1, 0)
  | .NoReaction, .dislike => (.Disliked, "added", 0, 1)
  | .Liked, .like => (.NoReaction, "removed", -1, 0)
  | .Liked, .dislike => (.Disliked, "changed", -1, 1)
  | .Disliked, .like => (.Liked, "changed", 1, -1)
  | .Disliked, .dislike => (.NoReaction, "removed", 0, -1)

/-- The state of a `(user, comment)` pair read off the store: the type of the
pair's reaction row, if any. -/
def userState (u c : Nat) (s : DB) : ReactState :=
  match s.reactions.find? (reactionMatches u c) with
  | none => .NoReaction
  | some r =>
      if r.reaction_type == "like" then .Liked
      else if r.reaction_type == "dislike" then .Disliked
      else .NoReaction

/-! ### Counter invariant (§3, §8 of the spec) -/

/-- The `like` rows targeting comment `c`. -/
def likeP (c : Nat) (r : Reaction) : Bool :=
  r.target_type == "comment" && r.target_id == c && r.reaction_type == "like"

/-- The `dislike` rows targeting comment `c`. -/
def dislikeP (c : Nat) (r : Reaction) : Bool :=
  r.target_type == "comment" && r.target_id == c && r.reaction_type == "dislike"

/-- Number of active `like` reaction rows targeting comment `c`. -/
def commentLikeRows (c : Nat) (s : DB) : Nat :=
  s.reactions.countP (likeP c)

/-- Number of active `dislike` reaction rows targeting comment `c`. -/
def commentDislikeRows (c : Nat) (s : DB) : Nat :=
  s.reactions.countP (dislikeP c)

/-- The data-consistency invariant: every comment's counters equal the counts
of reaction rows of that type targeting it; comment-targeting reaction rows
carry a valid type; and at most one reaction row exists per
`(user, comment)` pair. -/
def Inv (s : DB) : Prop :=
  (∀ cm ∈ s.comments,
      cm.likes = (commentLikeRows cm.comment_id s : Int) ∧
      cm.dislikes = (commentDislikeRows cm.comment_id s : Int)) ∧
  (∀ r ∈ s.reactions, r.target_type = "comment" →
      r.reaction_type = "like" ∨ r.reaction_type = "dislike") ∧
  (∀ r ∈ s.reactions,
      s.reactions.countP (reactionMatches r.user_id r.target_id) ≤ 1)

/-- State after a sequence of `react_to_comment` calls
`(user_id, comment_id, reaction_type)`. -/
def runReacts (calls : List (Nat × Nat × String)) (s : DB) : DB :=
  calls.foldl (fun st call => (react_to_comment call.1 call.2.1 call.2.2 st).2) s

/-! ### Concrete states used by witnesses and counterexamples -/

/-- An approved post with an external channel message. -/
def exPost : Post :=
  { post_id := 1, content := "p", category := "general",
    channel_message_id := some 5, approved := 1, post_number := 1 }

/-- One approved post, no comments, one user. -/
def exDB0 : DB :=
  { posts := [exPost], comments := [], reactions := [],
    users := [{ user_id := 5, comments_posted := 0 }], nextCommentId := 1 }

/-- Comment 1 of post 1, currently disliked once by user 9. -/
def exComment1 : Comment :=
  { comment_id := 1, post_id := 1, content := "a", user_id := 5,
    parent_comment_id := none, timestamp := 1, likes := 0, dislikes := 1,
    flagged := false }

/-- State with one comment and one dislike reaction on it. -/
def exDB1 : DB :=
  { exDB0 with
    comments := [exComment1],
    reactions := [{ user_id := 9, target_type := "comment", target_id := 1,
                    reaction_type := "dislike" }],
    nextCommentId := 2 }

/-- Top-level comment 1 of post 1. -/
def exC1 : Comment :=
  { comment_id := 1, post_id := 1, content := "a", user_id := 5,
    parent_comment_id := none, timestamp := 1, likes := 0, dislikes := 0,
    flagged := false }

/-- Top-level comment 2 of post 1. -/
def exC2 : Comment :=
  { comment_id := 2, post_id := 1, content := "b", user_id := 5,
    parent_comment_id := none, timestamp := 2, likes := 0, dislikes := 0,
    flagged := false }

/-- Comment 3: a reply to comment 1. -/
def exC3 : Comment :=
  { comment_id := 3, post_id := 1, content := "c", user_id := 5,
    parent_comment_id := some 1, timestamp := 3, likes := 0, dislikes := 0,
    flagged := false }

/-- Comment 4: a reply to the reply 3. -/
def exC4 : Comment :=
  { comment_id := 4, post_id := 1, content := "d", user_id := 5,
    parent_comment_id := some 3, timestamp := 4, likes := 0, dislikes := 0,
    flagged := false }

/-- Four comments of post 1 at increasing timestamps: two top-level (ids 1, 2),
a reply to comment 1 (id 3), and a reply to that reply (id 4). -/
def exDB3 : DB :=
  { exDB0 with comments := [exC1, exC2, exC3, exC4], nextCommentId := 5 }

/-- Three comments of post 1 at distinct increasing timestamps (the spec's
pagination scenario). -/
def exDB5 : DB :=
  { exDB0 with comments := [exC1, exC2, exC3], nextCommentId := 4 }

/-- An unapproved post and one lacking a channel message, for the
synchronizer's failure paths. -/
def exDB4 : DB :=
  { exDB0 with
    posts := [
      { post_id := 1, content := "p", category := "general",
        channel_message_id := some 5, approved := 0, post_number := 1 },
      { post_id := 2, content := "q", category := "general",
        channel_message_id := none, approved := 1, post_number := 2 }] }

/-! ### Characterizations of the three `reactStep` branches -/

theorem react_state_eq (u c : Nat) (rt : String) (s : DB) :
    (react_to_comment u c rt s).2 = (reactStep u c rt s).2 := rfl

theorem react_ok_eq (u c : Nat) (rt : String) (s : DB) :
    (react_to_comment u c rt s).1.1 = true := rfl

theorem react_action_eq (u c : Nat) (rt : String) (s : DB) :
    (react_to_comment u c rt s).1.2.1 = (reactStep u c rt s).1 := rfl

theorem react_counts_eq (u c : Nat) (rt : String) (s : DB) (cm : Comment)
    (h : (reactStep u c rt s).2.comments.find? (fun x => x.comment_id == c) =
      some cm) :
    (react_to_comment u c rt s).1.2.2 = (cm.likes, cm.dislikes) := by
  unfold react_to_comment
  simp only [h]

theorem reactStep_add (s : DB) (u c : Nat) (rt : String)
    (hfind : s.reactions.find? (reactionMatches u c) = none) :
    reactStep u c rt s =
      ("added",
       { s with
         reactions := s.reactions ++
           [{ user_id := u, target_type := "comment", target_id := c,
              reaction_type := rt }],
         comments := s.comments.map (fun cm =>
           if cm.comment_id == c then
             (if rt == "like" then { cm with likes := cm.likes + 1 }
              else { cm with dislikes := cm.dislikes + 1 })
           else cm) }) := by
  unfold reactStep
  rw [hfind]

theorem reactStep_remove (s : DB) (u c : Nat) (rt : String) (r : Reaction)
    (hfind : s.reactions.find? (reactionMatches u c) = some r)
    (hsame : (r.reaction_type == rt) = true) :
    reactStep u c rt s =
      ("removed",
       { s with
         reactions := s.reactions.filter (fun x => !(reactionMatches u c x)),
         comments := s.comments.map (fun cm =>
           if cm.comment_id == c then
             (if rt == "like" then { cm with likes := cm.likes - 1 }
              else { cm with dislikes := cm.dislikes - 1 })
           else cm) }) := by
  unfold reactStep
  rw [hfind]
  simp [hsame]

theorem reactStep_change (s : DB) (u c : Nat) (rt : String) (r : Reaction)
    (hfind : s.reactions.find? (reactionMatches u c) = some r)
    (hdiff : (r.reaction_type == rt) = false) :
    reactStep u c rt s =
      ("changed",
       { s with
         reactions := s.reactions.map (fun x =>
           if reactionMatches u c x then { x with reaction_type := rt } else x),
         comments := s.comments.map (fun cm =>
           if cm.comment_id == c then
             (if r.reaction_type == "like" then
                { cm with likes := cm.likes - 1, dislikes := cm.dislikes + 1 }
              else
                { cm with likes := cm.likes + 1, dislikes := cm.dislikes - 1 })
           else cm) }) := by
  unfold reactStep
  rw [hfind]
  simp [hdiff]

/-! ### Helper lemmas on lists -/

theorem countP_split {α : Type} (p q : α → Bool) (l : List α) :
    l.countP p = l.countP (fun a => p a && q a) + l.countP (fun a => p a && !q a) := by
  induction l with
  | nil => simp
  | cons x xs ih =>
      by_cases hp : p x
      · by_cases hq : q x <;> simp [List.countP_cons, hp, hq, ih] <;> omega
      · simp [List.countP_cons, hp, ih]

theorem countP_eq_zero_of_find?_eq_none {α : Type} {p : α → Bool} {l : List α}
    (h : l.find? p = none) : l.countP p = 0 :=
  List.countP_eq_zero.mpr (List.find?_eq_none.mp h)

theorem filter_eq_singleton_of_find? {α : Type} {p : α → Bool} {l : List α} {a : α}
    (hf : l.find? p = some a) (hc : l.countP p ≤ 1) : l.filter p = [a] := by
  induction l with
  | nil => simp at hf
  | cons x xs ih =>
      by_cases hx : p x
      · rw [List.find?_cons_of_pos _ hx] at hf
        injection hf with hxa
        subst hxa
        have h0 : xs.countP p = 0 := by
          have hcc := List.countP_cons_of_pos p xs hx
          omega
        have hnil : xs.filter p = [] :=
          List.filter_eq_nil_iff.mpr (List.countP_eq_zero.mp h0)
        rw [List.filter_cons_of_pos hx, hnil]
      · rw [List.find?_cons_of_neg _ hx] at hf
        rw [List.countP_cons_of_neg p xs hx] at hc
        rw [List.filter_cons_of_neg hx]
        exact ih hf hc

theorem find?_filter_not {α : Type} (p : α → Bool) (l : List α) :
    (l.filter (fun x => !(p x))).find? p = none := by
  refine List.find?_eq_none.mpr ?h
  intro x hx
  have h2 := (List.mem_filter.mp hx).2
  simp only [Bool.not_eq_eq_eq_not, Bool.not_true] at h2
  simp [h2]

theorem map_id_of_mem {α : Type} {f : α → α} {l : List α} (h : ∀ x ∈ l, f x = x) :
    l.map f = l :=
  (List.map_congr_left h).trans (List.map_id l)

theorem find?_map_invariant {α : Type} (f : α → α) (p : α → Bool) (l : List α)
    (h : ∀ x, p (f x) = p x) : (l.map f).find? p = (l.find? p).map f := by
  rw [List.find?_map]
  have heq : (p ∘ f) = p := funext h
  rw [heq]

theorem countP_map_pred {α : Type} (f : α → α) (p : α → Bool) (l : List α) :
    (l.map f).countP p = l.countP (fun a => p (f a)) := by
  rw [List.countP_map]
  rfl

theorem find?_comment_update (l : List Comment) (c : Nat) (cm : Comment)
    (F : Comment → Comment) (hF : ∀ x, (F x).comment_id = x.comment_id)
    (h : l.find? (fun x => x.comment_id == c) = some cm) :
    (l.map (fun x => if x.comment_id == c then F x else x)).find?
      (fun x => x.comment_id == c) = some (F cm) := by
  rw [find?_map_invariant _ _ _ ?hp]
  · rw [h]
    have hcc := List.find?_some h
    simp only at hcc
    simp only [Option.map_some']
    rw [if_pos hcc]
  case hp =>
    intro x
    by_cases hx : (x.comment_id == c) = true
    · simp [hx, hF]
    · simp [hx]

theorem reactionMatches_update (u c : Nat) (rt : String) (x : Reaction) :
    reactionMatches u c (if reactionMatches u c x then
      { x with reaction_type := rt } else x) = reactionMatches u c x := by
  by_cases hx : reactionMatches u c x = true
  · rw [if_pos hx]
    rfl
  · rw [if_neg hx]

theorem rowNumber_getElem? (n i : Nat) (l : List Comment) :
    (rowNumber n l)[i]? = l[i]?.map (fun c => (n + i, c)) := by
  induction l generalizing n i with
  | nil => simp [rowNumber]
  | cons c cs ih =>
      cases i with
      | zero => simp [rowNumber]
      | succ j =>
          have harith : n + 1 + j = n + (j + 1) := by omega
          simp [rowNumber, ih (n + 1) j, harith]

/-! ### Claim theorems -/

/-- C10: `react_to_comment` never checks that the target comment exists: with
no comment row for `c` and no prior reaction row for `(u, c)`, it reports
success with action `"added"` and counters `(0, 0)`, inserting a reaction row
that targets the nonexistent comment while the comment table is unchanged. -/
theorem react_nonexistent_comment (s : DB) (u c : Nat) (rt : String)
    (hcm : s.comments.find? (fun x => x.comment_id == c) = none)
    (hrx : s.reactions.find? (reactionMatches u c) = none) :
    react_to_comment u c rt s =
      ((true, "added", 0, 0),
       { s with reactions := s.reactions ++
           [{ user_id := u, target_type := "comment", target_id := c,
              reaction_type := rt }] }) := by
  have hid : s.comments.map (fun cm =>
      if cm.comment_id == c then
        (if rt == "like" then { cm with likes := cm.likes + 1 }
         else { cm with dislikes := cm.dislikes + 1 })
      else cm) = s.comments := by
    refine map_id_of_mem ?h
    intro x hx
    have hne := List.find?_eq_none.mp hcm x hx
    simp only [Bool.not_eq_true] at hne
    simp [hne]
  unfold react_to_comment
  rw [reactStep_add s u c rt hrx]
  dsimp only
  rw [hid, hcm]

/-- Witness for C10 at a concrete state: reacting to the absent comment 42. -/
theorem react_nonexistent_comment_witness :
    react_to_comment 7 42 "like" exDB0 =
      ((true, "added", 0, 0),
       { exDB0 with reactions := exDB0.reactions ++
           [{ user_id := 7, target_type := "comment", target_id := 42,
              reaction_type := "like" }] }) :=
  react_nonexistent_comment exDB0 7 42 "like" (by decide) (by decide)

/-- C8: `get_comment_sequential_number` returns the count of comments of the
same post with `timestamp` at most this comment's; hence two comments of one
post with identical timestamps receive the same number. -/
theorem sequential_number_counts (s : DB) (cid : Nat) (cm : Comment)
    (h : s.comments.find? (fun c => c.comment_id == cid) = some cm) :
    get_comment_sequential_number cid s =
      some ((s.comments.filter (fun c =>
        c.post_id == cm.post_id && decide (c.timestamp ≤ cm.timestamp))).length) ∧
    (∀ cid2 cm2, s.comments.find? (fun c => c.comment_id == cid2) = some cm2 →
      cm2.post_id = cm.post_id → cm2.timestamp = cm.timestamp →
      get_comment_sequential_number cid2 s = get_comment_sequential_number cid s) := by
  have base : ∀ cid0 cm0,
      s.comments.find? (fun c => c.comment_id == cid0) = some cm0 →
      get_comment_sequential_number cid0 s =
        some ((s.comments.filter (fun c =>
          c.post_id == cm0.post_id && decide (c.timestamp ≤ cm0.timestamp))).length) := by
    intro cid0 cm0 h0
    unfold get_comment_sequential_number
    rw [h0]
  refine ⟨base cid cm h, ?h2⟩
  intro cid2 cm2 h2 hpost hts
  rw [base cid2 cm2 h2, base cid cm h, hpost, hts]

/-- Witness for C8: comment 3 of the four-comment post is numbered 3. -/
theorem sequential_number_counts_witness :
    get_comment_sequential_number 3 exDB3 =
      some ((exDB3.comments.filter (fun c =>
        c.post_id == exC3.post_id && decide (c.timestamp ≤ exC3.timestamp))).length) ∧
    get_comment_sequential_number 3 exDB3 = some 3 := by
  refine ⟨(sequential_number_counts exDB3 3 exC3 (by decide)).1, by decide⟩

/-- C9: `update_channel_message_comment_count` fails without issuing any edit
request when the post's channel message reference is null or the post is not
approved. -/
theorem sync_precondition_failure (isMedia : Nat → Bool)
    (mediaInfo : Nat → Option String) (s : DB) (pid : Nat) (p : Post)
    (hp : s.posts.find? (fun q => q.post_id == pid) = some p)
    (h : p.channel_message_id = none ∨ p.approved ≠ 1) :
    (update_channel_message_comment_count isMedia mediaInfo pid s).1.1 = false ∧
    (update_channel_message_comment_count isMedia mediaInfo pid s).2 = [] := by
  unfold update_channel_message_comment_count
  simp only [hp]
  rcases h with h | h
  · simp [h]
  · cases hch : p.channel_message_id with
    | none => simp
    | some mid =>
        by_cases hm : mid == 0
        · simp [hm]
        · simp [hm, h]

/-- Witness for C9: the unapproved post 1 and the channel-less post 2 both
fail with no emitted edit. -/
theorem sync_precondition_failure_witness :
    (update_channel_message_comment_count (fun _ => false) (fun _ => none)
        1 exDB4).1.1 = false ∧
    (update_channel_message_comment_count (fun _ => false) (fun _ => none)
        1 exDB4).2 = [] :=
  sync_precondition_failure (fun _ => false) (fun _ => none) exDB4 1
    { post_id := 1, content := "p", category := "general",
      channel_message_id := some 5, approved := 0, post_number := 1 }
    (by decide) (Or.inr (by decide))

/-- C4 counterexample: for a post with no comments, `get_comments_paginated`
returns `total_pages = 0`, not the claimed floor of 1 (the items list is empty
and no error occurs). -/
theorem total_pages_no_floor_cex :
    (get_comments_paginated 1 1 2 exDB0).2.2.2 = 0 ∧
    (get_comments_paginated 1 1 2 exDB0).1 = [] ∧
    (get_comments_paginated 1 1 2 exDB0).2.2.1 = 0 ∧
    ¬(get_comments_paginated 1 1 2 exDB0).2.2.1 = 1 := by
  decide

/-- C4 amended: `totalPages = ceil(totalCount / pageSize)` with no floor: a
zero total yields `totalPages = 0` together with an empty item list (and no
error), and a positive total yields the exact ceiling, characterized by
`pageSize * (totalPages - 1) < totalCount ≤ pageSize * totalPages`. -/
theorem total_pages_ceiling (s : DB) (post page perPage : Nat) (hpp : 1 ≤ perPage) :
    ((get_comments_paginated post page perPage s).2.2.2 = 0 →
      (get_comments_paginated post page perPage s).1 = [] ∧
      (get_comments_paginated post page perPage s).2.2.1 = 0) ∧
    (0 < (get_comments_paginated post page perPage s).2.2.2 →
      perPage * ((get_comments_paginated post page perPage s).2.2.1 - 1) <
        (get_comments_paginated post page perPage s).2.2.2 ∧
      (get_comments_paginated post page perPage s).2.2.2 ≤
        perPage * (get_comments_paginated post page perPage s).2.2.1) := by
  unfold get_comments_paginated
  simp only
  constructor
  · intro ht
    have htc : get_comment_count post s = 0 := ht
    constructor
    · have hfil : s.comments.filter (fun c => c.post_id == post) = [] := by
        unfold get_comment_count at htc
        exact List.length_eq_zero.mp htc
      unfold sortedPostComments
      rw [hfil]
      simp [sortByTs, rowNumber]
    · rw [htc]
      have hlt : perPage - 1 < perPage := by omega
      simpa using Nat.div_eq_of_lt hlt
  · intro ht
    set t := get_comment_count post s with hts
    have h1 : t + perPage - 1 = (t - 1) + perPage := by omega
    rw [h1, Nat.add_div_right _ (by omega)]
    have hdm := Nat.div_add_mod (t - 1) perPage
    have hmlt : (t - 1) % perPage < perPage := Nat.mod_lt _ (by omega)
    rw [Nat.add_sub_cancel, Nat.mul_add, Nat.mul_one]
    omega

/-- Witness for the C4 amended theorem: one comment at page size 2 gives
`totalPages = 1`, squeezed by `2 * 0 < 1 ≤ 2 * 1`. -/
theorem total_pages_ceiling_witness :
    2 * ((get_comments_paginated 1 1 2 exDB1).2.2.1 - 1) <
      (get_comments_paginated 1 1 2 exDB1).2.2.2 ∧
    (get_comments_paginated 1 1 2 exDB1).2.2.2 ≤
      2 * (get_comments_paginated 1 1 2 exDB1).2.2.1 :=
  (total_pages_ceiling exDB1 1 1 2 (by decide)).2 (by decide)

/-- C7 counterexample: comment 4 is a reply whose parent is the reply 3, yet
`find_comment_page` reports it on page 2 while its parent is on page 1 — a
reply is not always on the same page as its parent. -/
theorem locate_page_reply_cex :
    (exDB3.comments.find? (fun c => c.comment_id == 4)).map
        Comment.parent_comment_id = some (some 3) ∧
    (find_comment_page 4 2 exDB3).map PageLoc.page = some 2 ∧
    (find_comment_page 3 2 exDB3).map PageLoc.page = some 1 := by
  decide

/-- C7 amended: `find_comment_page` anchors a top-level comment at itself and
a reply at its (nonzero) parent, returning
`page = floor(n / pageSize) + 1` with `n` the number of top-level comments of
the same post with a smaller id; a reply whose parent is a top-level comment
of the same post is therefore reported on its parent's page (a reply to a
reply need not be). -/
theorem locate_page_spec (s : DB) (c perPage : Nat) (cm : Comment)
    (hc : s.comments.find? (fun x => x.comment_id == c) = some cm) :
    (cm.parent_comment_id = none →
      find_comment_page c perPage s = some
        { page := (s.comments.filter (fun x =>
            x.post_id == cm.post_id && x.parent_comment_id.isNone &&
              decide (x.comment_id < c))).length / perPage + 1,
          post_id := cm.post_id, comment_id := c }) ∧
    (∀ p, cm.parent_comment_id = some p → p ≠ 0 →
      find_comment_page c perPage s = some
        { page := (s.comments.filter (fun x =>
            x.post_id == cm.post_id && x.parent_comment_id.isNone &&
              decide (x.comment_id < p))).length / perPage + 1,
          post_id := cm.post_id, comment_id := p }) ∧
    (∀ p pcm, cm.parent_comment_id = some p → p ≠ 0 →
      s.comments.find? (fun x => x.comment_id == p) = some pcm →
      pcm.post_id = cm.post_id → pcm.parent_comment_id = none →
      find_comment_page c perPage s = find_comment_page p perPage s) := by
  refine ⟨?top, ?reply, ?same⟩
  case top =>
    intro hnone
    unfold find_comment_page
    simp only [hc, hnone]
  case reply =>
    intro p hp hpz
    unfold find_comment_page
    simp only [hc, hp]
    have : (p == 0) = false := by
      simp [hpz]
    simp only [this]
    rfl
  case same =>
    intro p pcm hp hpz hfp hpost htop
    unfold find_comment_page
    simp only [hc, hp, hfp, htop]
    have hz : (p == 0) = false := by
      simp [hpz]
    simp only [hz, hpost]
    rfl

/-- Witness for the C7 amended theorem: the reply 3 (parent: top-level
comment 1 of the same post) is reported on its parent's page. -/
theorem locate_page_spec_witness :
    find_comment_page 3 2 exDB3 = find_comment_page 1 2 exDB3 :=
  (locate_page_spec exDB3 3 2 exC3 (by decide)).2.2 1 exC1 (by decide)
    (by decide) (by decide) (by decide) (by decide)

/-- C6: the `comment_number` of the `j`-th item of any page returned by
`get_comments_paginated` equals `(page-1)*pageSize + j + 1`, the item's
1-based rank over the entire post's comment set in timestamp order — so the
numbers continue across pages and are monotone in the listing order. -/
theorem comment_number_global_rank (s : DB) (post page perPage j : Nat)
    (it : CommentItem)
    (h : (get_comments_paginated post page perPage s).1[j]? = some it) :
    it.comment_number = (page - 1) * perPage + j + 1 := by
  unfold get_comments_paginated at h
  simp only at h
  rw [List.getElem?_map, List.getElem?_take] at h
  by_cases hj : j < perPage
  · rw [if_pos hj, List.getElem?_drop, rowNumber_getElem?] at h
    cases hl : (sortedPostComments post s)[(page - 1) * perPage + j]? with
    | none =>
        rw [hl] at h
        simp at h
    | some c =>
        rw [hl] at h
        simp only [Option.map_some'] at h
        injection h with hh
        rw [← hh]
        simp only [mkItem]
        omega
  · rw [if_neg hj] at h
    simp at h

/-- Witness for C6, the spec's scenario: post 1 has 3 comments at distinct
increasing timestamps; with page size 2, page 1 carries numbers 1 and 2 and
page 2 carries number 3; the page-2 item's number is obtained from the rank
theorem. -/
theorem comment_number_global_rank_witness :
    (get_comments_paginated 1 1 2 exDB5).1.map CommentItem.comment_number =
      [1, 2] ∧
    (get_comments_paginated 1 2 2 exDB5).1.map CommentItem.comment_number =
      [3] ∧
    (get_comments_paginated 1 2 2 exDB5).1[0]? = some (mkItem exDB5 3 exC3) ∧
    (mkItem exDB5 3 exC3).comment_number = (2 - 1) * 2 + 0 + 1 :=
  ⟨by decide, by decide, by decide,
   comment_number_global_rank exDB5 1 2 2 0 (mkItem exDB5 3 exC3) (by decide)⟩

/-- C3 counterexample: against an approved post with an empty comment store,
`save_comment` with `parent_comment_id = 0` — a parent id referencing no
existing comment — succeeds and inserts a row (Python truthiness skips the
parent check for 0), instead of returning a typed error with no mutation. -/
theorem create_comment_zero_parent_cex :
    exDB0.comments = [] ∧
    (save_comment 1 "hi" 5 (some 0) 10 exDB0).1.1 = some 1 ∧
    (save_comment 1 "hi" 5 (some 0) 10 exDB0).1.2 = none ∧
    (save_comment 1 "hi" 5 (some 0) 10 exDB0).2.comments.length = 1 := by
  decide

/-- C3 amended: for a missing-or-unapproved post, and for a given *nonzero*
`parent_comment_id` referencing no existing comment, `save_comment` returns an
error with no id and leaves the state unchanged (a parent id of 0 is treated
as absent and skips the check); on success the comment insert, the id
assignment and the author-counter increment happen in the same step. -/
theorem create_comment_spec (s : DB) (pid : Nat) (content : String) (uid : Nat)
    (parent : Option Nat) (now : Nat) :
    (s.posts.find? (fun p => p.post_id == pid && p.approved == 1) = none →
      (save_comment pid content uid parent now s).1.1 = none ∧
      (save_comment pid content uid parent now s).1.2.isSome = true ∧
      (save_comment pid content uid parent now s).2 = s) ∧
    (∀ p, parent = some p → p ≠ 0 →
      s.comments.find? (fun c => c.comment_id == p) = none →
      (save_comment pid content uid parent now s).1.1 = none ∧
      (save_comment pid content uid parent now s).1.2.isSome = true ∧
      (save_comment pid content uid parent now s).2 = s) ∧
    (∀ pr, s.posts.find? (fun p => p.post_id == pid && p.approved == 1) = some pr →
      (parent = none ∨ parent = some 0 ∨
        ∃ p, parent = some p ∧
          (s.comments.find? (fun c => c.comment_id == p)).isSome = true) →
      save_comment pid content uid parent now s =
        ((some s.nextCommentId, none),
         { s with
           comments := s.comments ++
             [{ comment_id := s.nextCommentId, post_id := pid, content := content,
                user_id := uid, parent_comment_id := parent, timestamp := now,
                likes := 0, dislikes := 0, flagged := false }],
           users := s.users.map (fun u =>
             if u.user_id == uid then
               { u with comments_posted := u.comments_posted + 1 }
             else u),
           nextCommentId := s.nextCommentId + 1 })) := by
  refine ⟨?postfail, ?parentfail, ?success⟩
  case postfail =>
    intro hpost
    unfold save_comment
    rw [hpost]
    exact ⟨rfl, rfl, rfl⟩
  case parentfail =>
    intro p hp hpz hfind
    unfold save_comment
    cases hpost : s.posts.find? (fun q => q.post_id == pid && q.approved == 1) with
    | none => exact ⟨rfl, rfl, rfl⟩
    | some pr =>
        simp only [hp]
        have hz : (p == 0) = false := by simp [hpz]
        simp only [hz, hfind]
        simp
  case success =>
    intro pr hpost hok
    unfold save_comment
    simp only [hpost]
    rcases hok with h | h | ⟨p, hp, hfound⟩
    · subst h
      rfl
    · subst h
      rfl
    · subst hp
      by_cases hz : p = 0
      · subst hz
        rfl
      · have hzb : (p == 0) = false := by simp [hz]
        obtain ⟨x, hfe⟩ := Option.isSome_iff_exists.mp hfound
        simp [hzb, hfe]

/-- Witness for the C3 amended theorem: a nonzero missing parent id (7) fails
with no mutation. -/
theorem create_comment_spec_witness :
    (save_comment 1 "hi" 5 (some 7) 10 exDB0).1.1 = none ∧
    (save_comment 1 "hi" 5 (some 7) 10 exDB0).1.2.isSome = true ∧
    (save_comment 1 "hi" 5 (some 7) 10 exDB0).2 = exDB0 :=
  (create_comment_spec exDB0 1 "hi" 5 (some 7) 10).2.1 7 rfl (by decide)
    (by decide)

/-- C5 counterexample: starting from the `Disliked` state (user 9 has a
dislike row on comment 1, counters `(0, 1)`), calling `react` twice with
`like` does end with no reaction row, but leaves the dislikes counter at 0 —
the pre-toggle counters are not restored. -/
theorem double_toggle_cex :
    exDB1.comments.map Comment.dislikes = [1] ∧
    (react_to_comment 9 1 "like"
      (react_to_comment 9 1 "like" exDB1).2).2.comments.map Comment.dislikes =
      [0] ∧
    (react_to_comment 9 1 "like"
      (react_to_comment 9 1 "like" exDB1).2).2.reactions = [] := by
  decide

/-- C5 amended: from the `NoReaction` state (no reaction row for the pair),
calling `react` twice in a row with the same reaction type returns the pair
to `NoReaction` and restores the whole store — counters included — exactly. -/
theorem double_toggle_roundtrip (s : DB) (u c : Nat) (rt : String)
    (hnone : s.reactions.find? (reactionMatches u c) = none) :
    (react_to_comment u c rt (react_to_comment u c rt s).2).2 = s ∧
    userState u c (react_to_comment u c rt (react_to_comment u c rt s).2).2 =
      ReactState.NoReaction := by
  have hrow : reactionMatches u c
      { user_id := u, target_type := "comment", target_id := c,
        reaction_type := rt } = true := by
    simp [reactionMatches]
  have hre : (s.reactions ++
      [({ user_id := u, target_type := "comment", target_id := c,
          reaction_type := rt } : Reaction)]).filter
        (fun x => !(reactionMatches u c x)) = s.reactions := by
    rw [List.filter_append]
    have hl : s.reactions.filter (fun x => !(reactionMatches u c x)) =
        s.reactions := by
      refine List.filter_eq_self.mpr ?ha
      intro a ha
      have := List.find?_eq_none.mp hnone a ha
      simp only [Bool.not_eq_true] at this
      simp [this]
    simp [hl, hrow]
  have hco : ((s.comments.map (fun cm =>
      if cm.comment_id == c then
        (if rt == "like" then { cm with likes := cm.likes + 1 }
         else { cm with dislikes := cm.dislikes + 1 })
      else cm)).map (fun cm =>
      if cm.comment_id == c then
        (if rt == "like" then { cm with likes := cm.likes - 1 }
         else { cm with dislikes := cm.dislikes - 1 })
      else cm)) = s.comments := by
    rw [List.map_map]
    refine map_id_of_mem ?hb
    intro x _
    by_cases hx : (x.comment_id == c) = true
    · by_cases hrt : (rt == "like") = true
      · simp [Function.comp, hx, hrt]
      · simp [Function.comp, hx, hrt]
    · simp [Function.comp, hx]
  have hstep2 : reactStep u c rt
      { s with
        reactions := s.reactions ++
          [{ user_id := u, target_type := "comment", target_id := c,
             reaction_type := rt }],
        comments := s.comments.map (fun cm =>
          if cm.comment_id == c then
            (if rt == "like" then { cm with likes := cm.likes + 1 }
             else { cm with dislikes := cm.dislikes + 1 })
          else cm) } =
      ("removed",
       { s with
         reactions := (s.reactions ++
           [({ user_id := u, target_type := "comment", target_id := c,
               reaction_type := rt } : Reaction)]).filter
             (fun x => !(reactionMatches u c x)),
         comments := ((s.comments.map (fun cm =>
           if cm.comment_id == c then
             (if rt == "like" then { cm with likes := cm.likes + 1 }
              else { cm with dislikes := cm.dislikes + 1 })
           else cm)).map (fun cm =>
           if cm.comment_id == c then
             (if rt == "like" then { cm with likes := cm.likes - 1 }
              else { cm with dislikes := cm.dislikes - 1 })
           else cm)) }) := by
    refine reactStep_remove _ u c rt
      { user_id := u, target_type := "comment", target_id := c,
        reaction_type := rt } ?hf (by simp)
    show (s.reactions ++ _).find? _ = _
    rw [List.find?_append, hnone]
    simp [hrow]
  have hback : (react_to_comment u c rt (react_to_comment u c rt s).2).2 = s := by
    rw [react_state_eq, react_state_eq, reactStep_add s u c rt hnone]
    dsimp only
    rw [hstep2]
    dsimp only
    rw [hre, hco]
  refine ⟨hback, ?hst⟩
  rw [hback]
  unfold userState
  rw [hnone]

/-- Witness for the C5 amended theorem: user 7 has no reaction on comment 1;
liking twice restores the store and the pair ends at `NoReaction`. -/
theorem double_toggle_roundtrip_witness :
    (react_to_comment 7 1 "like" (react_to_comment 7 1 "like" exDB1).2).2 =
      exDB1 ∧
    userState 7 1
      (react_to_comment 7 1 "like" (react_to_comment 7 1 "like" exDB1).2).2 =
      ReactState.NoReaction :=
  double_toggle_roundtrip exDB1 7 1 "like" (by decide)

/-- C1: `react_to_comment` implements exactly the spec's six-transition state
machine over `NoReaction`/`Liked`/`Disliked` per `(user, comment)` pair: it
reports success, the `actionTaken` string, the successor pair state, the
counter deltas applied to the target comment, and the returned counters (read
back after the transition) all follow the table. -/
theorem react_implements_state_machine (s : DB) (u c : Nat) (inp : ReactInput)
    (cm : Comment)
    (hcm : s.comments.find? (fun x => x.comment_id == c) = some cm)
    (hvalid : ∀ r ∈ s.reactions, reactionMatches u c r = true →
      r.reaction_type = "like" ∨ r.reaction_type = "dislike") :
    (react_to_comment u c inp.str s).1.1 = true ∧
    (react_to_comment u c inp.str s).1.2.1 =
      (specTransition (userState u c s) inp).2.1 ∧
    userState u c (react_to_comment u c inp.str s).2 =
      (specTransition (userState u c s) inp).1 ∧
    (react_to_comment u c inp.str s).1.2.2.1 =
      cm.likes + (specTransition (userState u c s) inp).2.2.1 ∧
    (react_to_comment u c inp.str s).1.2.2.2 =
      cm.dislikes + (specTransition (userState u c s) inp).2.2.2 ∧
    (react_to_comment u c inp.str s).2.comments.find?
      (fun x => x.comment_id == c) =
      some { cm with
        likes := cm.likes + (specTransition (userState u c s) inp).2.2.1,
        dislikes := cm.dislikes + (specTransition (userState u c s) inp).2.2.2 } := by
  cases hex : s.reactions.find? (reactionMatches u c) with
  | none =>
      have hus : userState u c s = ReactState.NoReaction := by
        unfold userState
        rw [hex]
      cases inp with
      | like =>
          dsimp only [ReactInput.str]
          have hstep := reactStep_add s u c "like" hex
          have hfc : (reactStep u c "like" s).2.comments.find?
              (fun x => x.comment_id == c) =
              some { cm with likes := cm.likes + 1 } := by
            rw [hstep]
            exact find?_comment_update s.comments c cm _ (fun x => rfl) hcm
          refine ⟨rfl, ?act, ?st, ?lk, ?dk, ?fd⟩
          case act =>
            rw [react_action_eq, hstep, hus]
            rfl
          case st =>
            rw [react_state_eq, hstep, hus]
            unfold userState
            dsimp only
            rw [List.find?_append, hex]
            simp [reactionMatches, specTransition]
          case lk =>
            rw [react_counts_eq u c "like" s _ hfc, hus]
            simp [specTransition]
          case dk =>
            rw [react_counts_eq u c "like" s _ hfc, hus]
            simp [specTransition]
          case fd =>
            rw [react_state_eq, hfc, hus]
            simp [specTransition]
      | dislike =>
          dsimp only [ReactInput.str]
          have hstep := reactStep_add s u c "dislike" hex
          have hfc : (reactStep u c "dislike" s).2.comments.find?
              (fun x => x.comment_id == c) =
              some { cm with dislikes := cm.dislikes + 1 } := by
            rw [hstep]
            exact find?_comment_update s.comments c cm _ (fun x => rfl) hcm
          refine ⟨rfl, ?act, ?st, ?lk, ?dk, ?fd⟩
          case act =>
            rw [react_action_eq, hstep, hus]
            rfl
          case st =>
            rw [react_state_eq, hstep, hus]
            unfold userState
            dsimp only
            rw [List.find?_append, hex]
            simp [reactionMatches, specTransition]
          case lk =>
            rw [react_counts_eq u c "dislike" s _ hfc, hus]
            simp [specTransition]
          case dk =>
            rw [react_counts_eq u c "dislike" s _ hfc, hus]
            simp [specTransition]
          case fd =>
            rw [react_state_eq, hfc, hus]
            simp [specTransition]
  | some r =>
      have hmem : r ∈ s.reactions := List.mem_of_find?_eq_some hex
      have hmatch : reactionMatches u c r = true := List.find?_some hex
      rcases hvalid r hmem hmatch with htype | htype
      · -- existing reaction is a like
        have hus : userState u c s = ReactState.Liked := by
          unfold userState
          rw [hex]
          simp [htype]
        cases inp with
        | like =>
            dsimp only [ReactInput.str]
            have hsame : (r.reaction_type == "like") = true := by
              simp [htype]
            have hstep := reactStep_remove s u c "like" r hex hsame
            have hfc : (reactStep u c "like" s).2.comments.find?
                (fun x => x.comment_id == c) =
                some { cm with likes := cm.likes - 1 } := by
              rw [hstep]
              exact find?_comment_update s.comments c cm _ (fun x => rfl) hcm
            refine ⟨rfl, ?act, ?st, ?lk, ?dk, ?fd⟩
            case act =>
              rw [react_action_eq, hstep, hus]
              rfl
            case st =>
              rw [react_state_eq, hstep, hus]
              unfold userState
              dsimp only
              rw [find?_filter_not]
              simp [specTransition]
            case lk =>
              rw [react_counts_eq u c "like" s _ hfc, hus]
              simp [specTransition, sub_eq_add_neg]
            case dk =>
              rw [react_counts_eq u c "like" s _ hfc, hus]
              simp [specTransition]
            case fd =>
              rw [react_state_eq, hfc, hus]
              simp [specTransition, sub_eq_add_neg]
        | dislike =>
            dsimp only [ReactInput.str]
            have hdiff : (r.reaction_type == "dislike") = false := by
              simp [htype]
            have hstep := reactStep_change s u c "dislike" r hex hdiff
            rw [htype] at hstep
            have hfc : (reactStep u c "dislike" s).2.comments.find?
                (fun x => x.comment_id == c) =
                some { cm with
                       likes := cm.likes - 1,
                       dislikes := cm.dislikes + 1 } := by
              rw [hstep]
              exact find?_comment_update s.comments c cm _ (fun x => rfl) hcm
            refine ⟨rfl, ?act, ?st, ?lk, ?dk, ?fd⟩
            case act =>
              rw [react_action_eq, hstep, hus]
              rfl
            case st =>
              rw [react_state_eq, hstep, hus]
              unfold userState
              dsimp only
              rw [find?_map_invariant _ _ _ (reactionMatches_update u c "dislike"),
                hex]
              dsimp only [Option.map_some']
              rw [if_pos hmatch]
              simp [specTransition]
            case lk =>
              rw [react_counts_eq u c "dislike" s _ hfc, hus]
              simp [specTransition, sub_eq_add_neg]
            case dk =>
              rw [react_counts_eq u c "dislike" s _ hfc, hus]
              simp [specTransition]
            case fd =>
              rw [react_state_eq, hfc, hus]
              simp [specTransition, sub_eq_add_neg]
      · -- existing reaction is a dislike
        have hus : userState u c s = ReactState.Disliked := by
          unfold userState
          rw [hex]
          simp [htype]
        cases inp with
        | like =>
            dsimp only [ReactInput.str]
            have hdiff : (r.reaction_type == "like") = false := by
              simp [htype]
            have hstep := reactStep_change s u c "like" r hex hdiff
            rw [htype] at hstep
            have hfc : (reactStep u c "like" s).2.comments.find?
                (fun x => x.comment_id == c) =
                some { cm with
                       likes := cm.likes + 1,
                       dislikes := cm.dislikes - 1 } := by
              rw [hstep]
              exact find?_comment_update s.comments c cm _ (fun x => rfl) hcm
            refine ⟨rfl, ?act, ?st, ?lk, ?dk, ?fd⟩
            case act =>
              rw [react_action_eq, hstep, hus]
              rfl
            case st =>
              rw [react_state_eq, hstep, hus]
              unfold userState
              dsimp only
              rw [find?_map_invariant _ _ _ (reactionMatches_update u c "like"),
                hex]
              dsimp only [Option.map_some']
              rw [if_pos hmatch]
              simp [specTransition]
            case lk =>
              rw [react_counts_eq u c "like" s _ hfc, hus]
              simp [specTransition]
            case dk =>
              rw [react_counts_eq u c "like" s _ hfc, hus]
              simp [specTransition, sub_eq_add_neg]
            case fd =>
              rw [react_state_eq, hfc, hus]
              simp [specTransition, sub_eq_add_neg]
        | dislike =>
            dsimp only [ReactInput.str]
            have hsame : (r.reaction_type == "dislike") = true := by
              simp [htype]
            have hstep := reactStep_remove s u c "dislike" r hex hsame
            have hfc : (reactStep u c "dislike" s).2.comments.find?
                (fun x => x.comment_id == c) =
                some { cm with dislikes := cm.dislikes - 1 } := by
              rw [hstep]
              exact find?_comment_update s.comments c cm _ (fun x => rfl) hcm
            refine ⟨rfl, ?act, ?st, ?lk, ?dk, ?fd⟩
            case act =>
              rw [react_action_eq, hstep, hus]
              rfl
            case st =>
              rw [react_state_eq, hstep, hus]
              unfold userState
              dsimp only
              rw [find?_filter_not]
              simp [specTransition]
            case lk =>
              rw [react_counts_eq u c "dislike" s _ hfc, hus]
              simp [specTransition]
            case dk =>
              rw [react_counts_eq u c "dislike" s _ hfc, hus]
              simp [specTransition, sub_eq_add_neg]
            case fd =>
              rw [react_state_eq, hfc, hus]
              simp [specTransition, sub_eq_add_neg]

/-- Witness for C1: user 9 currently dislikes comment 1 (state `Disliked`);
input `like` fires the `changed` row of the table. -/
theorem react_implements_state_machine_witness :
    (react_to_comment 9 1 (ReactInput.str .like) exDB1).1.1 = true ∧
    (react_to_comment 9 1 (ReactInput.str .like) exDB1).1.2.1 =
      (specTransition (userState 9 1 exDB1) .like).2.1 ∧
    userState 9 1 (react_to_comment 9 1 (ReactInput.str .like) exDB1).2 =
      (specTransition (userState 9 1 exDB1) .like).1 ∧
    (react_to_comment 9 1 (ReactInput.str .like) exDB1).1.2.2.1 =
      exComment1.likes + (specTransition (userState 9 1 exDB1) .like).2.2.1 ∧
    (react_to_comment 9 1 (ReactInput.str .like) exDB1).1.2.2.2 =
      exComment1.dislikes + (specTransition (userState 9 1 exDB1) .like).2.2.2 ∧
    (react_to_comment 9 1 (ReactInput.str .like) exDB1).2.comments.find?
      (fun x => x.comment_id == 1) =
      some { exComment1 with
        likes := exComment1.likes + (specTransition (userState 9 1 exDB1) .like).2.2.1,
        dislikes :=
          exComment1.dislikes + (specTransition (userState 9 1 exDB1) .like).2.2.2 } :=
  react_implements_state_machine exDB1 9 1 .like exComment1 (by decide)
    (by decide)

/-! ### Invariant preservation (C2) -/

theorem ite_bool_true {α : Type} {b : Bool} (a c : α) (h : b = true) :
    (if b then a else c) = a := by
  subst h
  rfl

theorem ite_bool_false {α : Type} {b : Bool} (a c : α) (h : b = false) :
    (if b then a else c) = c := by
  subst h
  rfl

theorem counts_append_row (L : List Reaction) (row : Reaction)
    (p : Reaction → Bool) :
    (L ++ [row]).countP p = L.countP p + (if p row then 1 else 0) := by
  rw [List.countP_append]
  simp [List.countP_cons]

theorem countP_eq_split (L : List Reaction) (u c : Nat) (r : Reaction)
    (hfind : L.find? (reactionMatches u c) = some r)
    (huni : L.countP (reactionMatches u c) ≤ 1) (p : Reaction → Bool) :
    L.countP p = (if p r then 1 else 0) +
      L.countP (fun a => p a && !(reactionMatches u c a)) := by
  have hf : L.filter (reactionMatches u c) = [r] :=
    filter_eq_singleton_of_find? hfind huni
  have h1 : L.countP (fun a => p a && reactionMatches u c a) =
      (if p r then 1 else 0) := by
    rw [← List.countP_filter, hf]
    simp [List.countP_cons]
  rw [countP_split p (reactionMatches u c) L, h1]

theorem countP_congr_fun {α : Type} {p q : α → Bool} (l : List α)
    (h : ∀ a, p a = q a) : l.countP p = l.countP q := by
  have hpq : p = q := funext h
  rw [hpq]

/-- The `added` branch preserves the invariant. -/
theorem inv_add (s : DB) (u c : Nat) (rt : String)
    (hrt : rt = "like" ∨ rt = "dislike")
    (hex : s.reactions.find? (reactionMatches u c) = none)
    (hinv : Inv s) :
    Inv { s with
      reactions := s.reactions ++
        [{ user_id := u, target_type := "comment", target_id := c,
           reaction_type := rt }],
      comments := s.comments.map (fun x =>
        if x.comment_id == c then
          (if rt == "like" then { x with likes := x.likes + 1 }
           else { x with dislikes := x.dislikes + 1 })
        else x) } := by
  obtain ⟨hcnt, hty, huniq⟩ := hinv
  have hzero : s.reactions.countP (reactionMatches u c) = 0 :=
    countP_eq_zero_of_find?_eq_none hex
  refine ⟨?cnt, ?ty, ?uniq⟩
  case cnt =>
    intro cm2 hcm2
    rw [List.mem_map] at hcm2
    obtain ⟨x, hx, hfx⟩ := hcm2
    obtain ⟨hxl, hxd⟩ := hcnt x hx
    subst hfx
    unfold commentLikeRows commentDislikeRows at *
    dsimp only at *
    by_cases hxc : (x.comment_id == c) = true
    · have hxeq : x.comment_id = c := by simpa using hxc
      rcases hrt with hrt | hrt <;> subst hrt
      · have hlk : (("like" : String) == "like") = true := rfl
        rw [ite_bool_true _ _ hxc, ite_bool_true _ _ hlk]
        dsimp only
        have hr1 : likeP x.comment_id
            { user_id := u, target_type := "comment", target_id := c,
              reaction_type := "like" } = true := by
          simp [likeP, hxeq]
        have hr2 : dislikeP x.comment_id
            { user_id := u, target_type := "comment", target_id := c,
              reaction_type := "like" } = false := by
          simp [dislikeP]
        constructor
        · rw [counts_append_row, ite_bool_true _ _ hr1]
          omega
        · rw [counts_append_row, ite_bool_false _ _ hr2, Nat.add_zero]
          exact hxd
      · have hdl : (("dislike" : String) == "like") = false := rfl
        rw [ite_bool_true _ _ hxc, ite_bool_false _ _ hdl]
        dsimp only
        have hr1 : likeP x.comment_id
            { user_id := u, target_type := "comment", target_id := c,
              reaction_type := "dislike" } = false := by
          simp [likeP]
        have hr2 : dislikeP x.comment_id
            { user_id := u, target_type := "comment", target_id := c,
              reaction_type := "dislike" } = true := by
          simp [dislikeP, hxeq]
        constructor
        · rw [counts_append_row, ite_bool_false _ _ hr1, Nat.add_zero]
          exact hxl
        · rw [counts_append_row, ite_bool_true _ _ hr2]
          omega
    · have hxeq : ¬x.comment_id = c := by simpa using hxc
      rw [ite_bool_false _ _ (by simpa using hxc)]
      have hbc : (c == x.comment_id) = false := by
        simp
        intro h
        exact hxeq h.symm
      have hr1 : likeP x.comment_id
          { user_id := u, target_type := "comment", target_id := c,
            reaction_type := rt } = false := by
        simp [likeP, hbc]
      have hr2 : dislikeP x.comment_id
          { user_id := u, target_type := "comment", target_id := c,
            reaction_type := rt } = false := by
        simp [dislikeP, hbc]
      constructor
      · rw [counts_append_row, ite_bool_false _ _ hr1, Nat.add_zero]
        exact hxl
      · rw [counts_append_row, ite_bool_false _ _ hr2, Nat.add_zero]
        exact hxd
  case ty =>
    intro r2 hr2
    rw [List.mem_append] at hr2
    rcases hr2 with hr2 | hr2
    · exact hty r2 hr2
    · intro _
      simp at hr2
      subst hr2
      exact hrt
  case uniq =>
    intro r2 hr2
    rw [List.mem_append] at hr2
    rcases hr2 with hr2 | hr2
    · rw [counts_append_row]
      by_cases hm : reactionMatches r2.user_id r2.target_id
          { user_id := u, target_type := "comment", target_id := c,
            reaction_type := rt } = true
      · have huc : u = r2.user_id ∧ c = r2.target_id := by
          simpa [reactionMatches] using hm
        obtain ⟨hu, hc⟩ := huc
        have hz2 : s.reactions.countP
            (reactionMatches r2.user_id r2.target_id) = 0 := by
          rw [← hu, ← hc]
          exact hzero
        rw [hz2, hm]
        simp
      · have hm2 : reactionMatches r2.user_id r2.target_id
            { user_id := u, target_type := "comment", target_id := c,
              reaction_type := rt } = false := by
          simpa using hm
        rw [hm2]
        simp only [Bool.false_eq_true, if_false, Nat.add_zero]
        exact huniq r2 hr2
    · simp at hr2
      subst hr2
      rw [counts_append_row]
      dsimp only
      have hz2 : s.reactions.countP (reactionMatches u c) = 0 := hzero
      rw [hz2]
      have hm : reactionMatches u c
          { user_id := u, target_type := "comment", target_id := c,
            reaction_type := rt } = true := by
        simp [reactionMatches]
      rw [hm]
      simp

/-- The `removed` branch preserves the invariant. -/
theorem inv_remove (s : DB) (u c : Nat) (rt : String) (r : Reaction)
    (hex : s.reactions.find? (reactionMatches u c) = some r)
    (hsame : (r.reaction_type == rt) = true)
    (hinv : Inv s) :
    Inv { s with
      reactions := s.reactions.filter (fun x => !(reactionMatches u c x)),
      comments := s.comments.map (fun x =>
        if x.comment_id == c then
          (if rt == "like" then { x with likes := x.likes - 1 }
           else { x with dislikes := x.dislikes - 1 })
        else x) } := by
  obtain ⟨hcnt, hty, huniq⟩ := hinv
  have hmem : r ∈ s.reactions := List.mem_of_find?_eq_some hex
  have hmatch : reactionMatches u c r = true := List.find?_some hex
  have hfields : (r.user_id = u ∧ r.target_type = "comment") ∧
      r.target_id = c := by
    simpa [reactionMatches] using hmatch
  obtain ⟨⟨hru, hrtt⟩, hrc⟩ := hfields
  have hrteq : r.reaction_type = rt := by simpa using hsame
  have huni : s.reactions.countP (reactionMatches u c) ≤ 1 := by
    have h2 := huniq r hmem
    rw [hru, hrc] at h2
    exact h2
  refine ⟨?cnt, ?ty, ?uniq⟩
  case cnt =>
    intro cm2 hcm2
    rw [List.mem_map] at hcm2
    obtain ⟨x, hx, hfx⟩ := hcm2
    obtain ⟨hxl, hxd⟩ := hcnt x hx
    subst hfx
    unfold commentLikeRows commentDislikeRows at *
    dsimp only at *
    have hnew1 : (s.reactions.filter
        (fun a => !(reactionMatches u c a))).countP (likeP x.comment_id) =
        s.reactions.countP
          (fun a => likeP x.comment_id a && !(reactionMatches u c a)) :=
      List.countP_filter _ _ _
    have hnew2 : (s.reactions.filter
        (fun a => !(reactionMatches u c a))).countP (dislikeP x.comment_id) =
        s.reactions.countP
          (fun a => dislikeP x.comment_id a && !(reactionMatches u c a)) :=
      List.countP_filter _ _ _
    have hsplit1 :=
      countP_eq_split s.reactions u c r hex huni (likeP x.comment_id)
    have hsplit2 :=
      countP_eq_split s.reactions u c r hex huni (dislikeP x.comment_id)
    have hrt : rt = "like" ∨ rt = "dislike" := by
      rw [← hrteq]
      exact hty r hmem hrtt
    by_cases hxc : (x.comment_id == c) = true
    · have hxeq : x.comment_id = c := by simpa using hxc
      rcases hrt with hrt | hrt <;> subst hrt
      · have hlk : (("like" : String) == "like") = true := rfl
        rw [ite_bool_true _ _ hxc, ite_bool_true _ _ hlk]
        dsimp only
        have hpr : likeP x.comment_id r = true := by
          simp [likeP, hrtt, hrc, hxeq, hrteq]
        have hpd : dislikeP x.comment_id r = false := by
          simp [dislikeP, hrteq]
        constructor
        · rw [hnew1]
          rw [hsplit1, ite_bool_true _ _ hpr] at hxl
          omega
        · rw [hnew2]
          rw [hsplit2, ite_bool_false _ _ hpd] at hxd
          omega
      · have hdl : (("dislike" : String) == "like") = false := rfl
        rw [ite_bool_true _ _ hxc, ite_bool_false _ _ hdl]
        dsimp only
        have hpr : likeP x.comment_id r = false := by
          simp [likeP, hrteq]
        have hpd : dislikeP x.comment_id r = true := by
          simp [dislikeP, hrtt, hrc, hxeq, hrteq]
        constructor
        · rw [hnew1]
          rw [hsplit1, ite_bool_false _ _ hpr] at hxl
          omega
        · rw [hnew2]
          rw [hsplit2, ite_bool_true _ _ hpd] at hxd
          omega
    · rw [ite_bool_false _ _ (by simpa using hxc)]
      have hxeq : ¬x.comment_id = c := by simpa using hxc
      have hbc : (c == x.comment_id) = false := by
        simp
        intro h
        exact hxeq h.symm
      have hpr : likeP x.comment_id r = false := by
        simp [likeP, hrc, hbc]
      have hpd : dislikeP x.comment_id r = false := by
        simp [dislikeP, hrc, hbc]
      constructor
      · rw [hnew1]
        rw [hsplit1, ite_bool_false _ _ hpr] at hxl
        omega
      · rw [hnew2]
        rw [hsplit2, ite_bool_false _ _ hpd] at hxd
        omega
  case ty =>
    intro r2 hr2
    have hr2m := (List.mem_filter.mp hr2).1
    exact hty r2 hr2m
  case uniq =>
    intro r2 hr2
    have hr2m := (List.mem_filter.mp hr2).1
    calc (s.reactions.filter (fun x => !(reactionMatches u c x))).countP
          (reactionMatches r2.user_id r2.target_id) ≤
        s.reactions.countP (reactionMatches r2.user_id r2.target_id) :=
          (List.filter_sublist s.reactions).countP_le _
      _ ≤ 1 := huniq r2 hr2m

/-- The `changed` branch preserves the invariant. -/
theorem inv_change (s : DB) (u c : Nat) (rt : String) (r : Reaction)
    (hrt : rt = "like" ∨ rt = "dislike")
    (hex : s.reactions.find? (reactionMatches u c) = some r)
    (hdiff : (r.reaction_type == rt) = false)
    (hinv : Inv s) :
    Inv { s with
      reactions := s.reactions.map (fun x =>
        if reactionMatches u c x then { x with reaction_type := rt } else x),
      comments := s.comments.map (fun x =>
        if x.comment_id == c then
          (if r.reaction_type == "like" then
             { x with likes := x.likes - 1, dislikes := x.dislikes + 1 }
           else { x with likes := x.likes + 1, dislikes := x.dislikes - 1 })
        else x) } := by
  obtain ⟨hcnt, hty, huniq⟩ := hinv
  have hmem : r ∈ s.reactions := List.mem_of_find?_eq_some hex
  have hmatch : reactionMatches u c r = true := List.find?_some hex
  have hfields : (r.user_id = u ∧ r.target_type = "comment") ∧
      r.target_id = c := by
    simpa [reactionMatches] using hmatch
  obtain ⟨⟨hru, hrtt⟩, hrc⟩ := hfields
  have hne : ¬r.reaction_type = rt := by simpa using hdiff
  have htype := hty r hmem hrtt
  have huni : s.reactions.countP (reactionMatches u c) ≤ 1 := by
    have h2 := huniq r hmem
    rw [hru, hrc] at h2
    exact h2
  have hfilter : s.reactions.filter (reactionMatches u c) = [r] :=
    filter_eq_singleton_of_find? hex huni
  have key : ∀ p : Reaction → Bool,
      (s.reactions.map (fun x =>
        if reactionMatches u c x then { x with reaction_type := rt }
        else x)).countP p =
      (if p { r with reaction_type := rt } then 1 else 0) +
        s.reactions.countP (fun a => p a && !(reactionMatches u c a)) := by
    intro p
    rw [countP_map_pred]
    rw [countP_split
      (fun a => p (if reactionMatches u c a then { a with reaction_type := rt }
        else a)) (reactionMatches u c) s.reactions]
    congr 1
    · rw [← List.countP_filter, hfilter]
      simp only [List.countP_cons, List.countP_nil]
      rw [ite_bool_true _ _ hmatch]
      simp
    · refine countP_congr_fun _ (fun a => ?hpt)
      by_cases hm : reactionMatches u c a = true
      · simp [hm]
      · simp [hm]
  refine ⟨?cnt, ?ty, ?uniq⟩
  case cnt =>
    intro cm2 hcm2
    rw [List.mem_map] at hcm2
    obtain ⟨x, hx, hfx⟩ := hcm2
    obtain ⟨hxl, hxd⟩ := hcnt x hx
    subst hfx
    unfold commentLikeRows commentDislikeRows at *
    dsimp only at *
    have hsplit1 :=
      countP_eq_split s.reactions u c r hex huni (likeP x.comment_id)
    have hsplit2 :=
      countP_eq_split s.reactions u c r hex huni (dislikeP x.comment_id)
    by_cases hxc : (x.comment_id == c) = true
    · have hxeq : x.comment_id = c := by simpa using hxc
      rcases htype with htype | htype
      · -- existing like; the input must be dislike
        have hrt2 : rt = "dislike" := by
          rcases hrt with h | h
          · exact absurd (htype.trans h.symm) hne
          · exact h
        subst hrt2
        have hcl : (r.reaction_type == "like") = true := by simp [htype]
        rw [ite_bool_true _ _ hxc, ite_bool_true _ _ hcl]
        dsimp only
        have hgr1 : likeP x.comment_id { r with reaction_type := "dislike" } =
            false := by
          simp [likeP]
        have hgr2 : dislikeP x.comment_id { r with reaction_type := "dislike" } =
            true := by
          simp [dislikeP, hrtt, hrc, hxeq]
        have hpr : likeP x.comment_id r = true := by
          simp [likeP, hrtt, hrc, hxeq, htype]
        have hpd : dislikeP x.comment_id r = false := by
          simp [dislikeP, htype]
        constructor
        · rw [key, ite_bool_false _ _ hgr1]
          rw [hsplit1, ite_bool_true _ _ hpr] at hxl
          omega
        · rw [key, ite_bool_true _ _ hgr2]
          rw [hsplit2, ite_bool_false _ _ hpd] at hxd
          omega
      · -- existing dislike; the input must be like
        have hrt2 : rt = "like" := by
          rcases hrt with h | h
          · exact h
          · exact absurd (htype.trans h.symm) hne
        subst hrt2
        have hcl : (r.reaction_type == "like") = false := by simp [htype]
        rw [ite_bool_true _ _ hxc, ite_bool_false _ _ hcl]
        dsimp only
        have hgr1 : likeP x.comment_id { r with reaction_type := "like" } =
            true := by
          simp [likeP, hrtt, hrc, hxeq]
        have hgr2 : dislikeP x.comment_id { r with reaction_type := "like" } =
            false := by
          simp [dislikeP]
        have hpr : likeP x.comment_id r = false := by
          simp [likeP, htype]
        have hpd : dislikeP x.comment_id r = true := by
          simp [dislikeP, hrtt, hrc, hxeq, htype]
        constructor
        · rw [key, ite_bool_true _ _ hgr1]
          rw [hsplit1, ite_bool_false _ _ hpr] at hxl
          omega
        · rw [key, ite_bool_false _ _ hgr2]
          rw [hsplit2, ite_bool_true _ _ hpd] at hxd
          omega
    · rw [ite_bool_false _ _ (by simpa using hxc)]
      have hxeq : ¬x.comment_id = c := by simpa using hxc
      have hbc : (c == x.comment_id) = false := by
        simp
        intro h
        exact hxeq h.symm
      have hgr1 : likeP x.comment_id { r with reaction_type := rt } = false := by
        simp [likeP, hrc, hbc]
      have hgr2 : dislikeP x.comment_id { r with reaction_type := rt } =
          false := by
        simp [dislikeP, hrc, hbc]
      have hpr : likeP x.comment_id r = false := by
        simp [likeP, hrc, hbc]
      have hpd : dislikeP x.comment_id r = false := by
        simp [dislikeP, hrc, hbc]
      constructor
      · rw [key, ite_bool_false _ _ hgr1]
        rw [hsplit1, ite_bool_false _ _ hpr] at hxl
        omega
      · rw [key, ite_bool_false _ _ hgr2]
        rw [hsplit2, ite_bool_false _ _ hpd] at hxd
        omega
  case ty =>
    intro r2 hr2
    rw [List.mem_map] at hr2
    obtain ⟨x, hxm, hgx⟩ := hr2
    by_cases hm : reactionMatches u c x = true
    · rw [ite_bool_true _ _ hm] at hgx
      subst hgx
      intro _
      exact hrt
    · rw [ite_bool_false _ _ (by simpa using hm)] at hgx
      subst hgx
      exact hty x hxm
  case uniq =>
    intro r2 hr2
    rw [List.mem_map] at hr2
    obtain ⟨x, hxm, hgx⟩ := hr2
    have hidu : r2.user_id = x.user_id ∧ r2.target_id = x.target_id := by
      by_cases hm : reactionMatches u c x = true
      · rw [ite_bool_true _ _ hm] at hgx
        subst hgx
        exact ⟨rfl, rfl⟩
      · rw [ite_bool_false _ _ (by simpa using hm)] at hgx
        subst hgx
        exact ⟨rfl, rfl⟩
    obtain ⟨h1, h2⟩ := hidu
    rw [h1, h2, countP_map_pred]
    have hpoint : ∀ a, reactionMatches x.user_id x.target_id
        (if reactionMatches u c a then { a with reaction_type := rt } else a) =
        reactionMatches x.user_id x.target_id a := by
      intro a
      by_cases hm : reactionMatches u c a = true
      · rw [ite_bool_true _ _ hm]
        rfl
      · rw [ite_bool_false _ _ (by simpa using hm)]
    rw [countP_congr_fun _ hpoint]
    exact huniq x hxm

/-- A single `react_to_comment` call with a valid reaction type preserves the
invariant. -/
theorem react_preserves_inv (u c : Nat) (rt : String) (s : DB)
    (hrt : rt = "like" ∨ rt = "dislike") (hinv : Inv s) :
    Inv (react_to_comment u c rt s).2 := by
  rw [react_state_eq]
  cases hex : s.reactions.find? (reactionMatches u c) with
  | none =>
      rw [reactStep_add s u c rt hex]
      dsimp only
      exact inv_add s u c rt hrt hex hinv
  | some r =>
      cases hb : (r.reaction_type == rt) with
      | true =>
          rw [reactStep_remove s u c rt r hex hb]
          dsimp only
          exact inv_remove s u c rt r hex hb hinv
      | false =>
          rw [reactStep_change s u c rt r hex hb]
          dsimp only
          exact inv_change s u c rt r hrt hex hb hinv

/-- C2: after every sequence of `react` calls starting from a state satisfying
the invariant, every comment's `likes`/`dislikes` counters equal the number of
`like`/`dislike` reaction rows targeting it, and at most one reaction row
exists per `(user, comment)` pair. -/
theorem react_sequence_invariant (calls : List (Nat × Nat × String)) (s : DB)
    (hinv : Inv s)
    (hcalls : ∀ call ∈ calls, call.2.2 = "like" ∨ call.2.2 = "dislike") :
    Inv (runReacts calls s) := by
  induction calls generalizing s with
  | nil => exact hinv
  | cons hd tl ih =>
      have h1 := react_preserves_inv hd.1 hd.2.1 hd.2.2 s
        (hcalls hd (List.mem_cons_self _ _)) hinv
      exact ih _ h1 (fun call hc => hcalls call (List.mem_cons_of_mem _ hc))

/-- Witness for C2: three reactions by two users on the store with one
disliked comment keep the invariant. -/
theorem react_sequence_invariant_witness :
    Inv (runReacts [(9, 1, "like"), (7, 1, "dislike"), (9, 1, "like")] exDB1) :=
  react_sequence_invariant [(9, 1, "like"), (7, 1, "dislike"), (9, 1, "like")]
    exDB1 (by unfold Inv commentLikeRows commentDislikeRows; decide) (by decide)

end Boo
